import Mathlib

/-!
# Verification of the ingestion-and-dispatch pipeline of `bot.py`

This file is a shallow embedding of the core webhook logic of the
repository's Flask/Telegram application (`src/bot.py`): the content
reconciler (`get_or_create_content_entry`), the release merger (the
MongoDB `$pull`/`$push`/`$addToSet` update block), the notification
dispatcher (`send_notification_to_channel`), the deep-link `/start`
handler, and the deletion-job scheduler (`scheduler.add_job` with
`replace_existing=True`).

External effects are modelled as explicit inputs:
* the MongoDB collection `movies` is a `List ContentEntry` (with
  `find_one` = `List.find?` over insertion order, `insert_one` = append,
  `update_one` by `_id` = pointwise map);
* the results of the two functions that are called by the webhook but
  whose definitions are not part of the sources (`parse_filename`,
  `get_tmdb_details_from_api`) are passed in as oracle values, as are
  the outcomes of Telegram HTTP calls (`copyMessage` ok / not ok,
  `sendPhoto` ok / not ok) and the fresh `ObjectId` that
  `insert_one` assigns;
* the APScheduler background scheduler is a list of `(job id, run
  date)` pairs; `add_job` with `replace_existing=True` drops any job
  with the same id and installs the new one;
* time is measured in minutes (the only duration in the code is
  `timedelta(minutes=30)`).

Python `float` ratings are modelled as `Rat` (no arithmetic is ever
performed on them by the modelled code); Telegram chat ids and message
ids are `Int` (chat ids of channels are negative).
-/

/-- `PLACEHOLDER_POSTER` from `bot.py`. -/
def PLACEHOLDER_POSTER : String :=
  "https://via.placeholder.com/400x600.png?text=Poster+Not+Found"

/-- The `type` field stored on a content document: `"movie"` or `"series"`. -/
inductive ContentType where
  | movie : ContentType
  | series : ContentType
deriving DecidableEq, Repr

/-- One element of the `files` array: `{"quality": ..., "message_id": ...}`. -/
structure FileRec where
  quality : String
  message_id : Int
deriving DecidableEq, Repr

/-- One element of the `episodes` array:
`{"season": ..., "episode_number": ..., "message_id": ...}`. -/
structure EpisodeRec where
  season : Int
  episode_number : Int
  message_id : Int
deriving DecidableEq, Repr

/-- One element of the `season_packs` array:
`{"season": ..., "quality": ..., "message_id": ...}`. -/
structure PackRec where
  season : Int
  quality : String
  message_id : Int
deriving DecidableEq, Repr

/-- A document of the `movies` collection, with the fields written by the
webhook ingestion path (`base_doc` / `shell_doc`) and read by the dispatch
path.  `id` is the string form of the Mongo `_id`. -/
structure ContentEntry where
  id : String
  tmdb_id : Option String
  title : String
  overview : String
  poster : Option String
  release_date : Option String
  vote_average : Rat
  genres : List String
  trailer_key : Option String
  ctype : ContentType
  languages : List String
  episodes : List EpisodeRec
  season_packs : List PackRec
  files : List FileRec
  categories : List String
deriving DecidableEq, Repr

/-- The kind-specific part of a parsed filename, as the webhook accesses it:
the `movie` branch reads `parsed_info.get('quality', 'HD')` (the key may be
absent), the `series_pack` branch reads `parsed_info['season']` and
`parsed_info['quality']`, the `series` (single episode) branch reads
`parsed_info['season']` and `parsed_info['episode']`. -/
inductive ParsedTarget where
  | movieT (quality : Option String) : ParsedTarget
  | packT (season : Int) (quality : String) : ParsedTarget
  | episodeT (season : Int) (episode : Int) : ParsedTarget
deriving DecidableEq, Repr

/-- The result dictionary of `parse_filename` (whose definition is not in
the sources; its result is an oracle input of the webhook model).  `title`
and `languages` are the keys the webhook reads directly; `target` carries
the `type` key together with the kind-specific keys. -/
structure ParsedInfo where
  title : String
  year : Option Int
  languages : List String
  target : ParsedTarget
deriving DecidableEq, Repr

/-- The `parsed_info['type']` string value determined by `target`. -/
def ParsedTarget.typeString : ParsedTarget → String
  | .movieT _ => "movie"
  | .packT _ _ => "series_pack"
  | .episodeT _ _ => "series"

/-- `"movie" if parsed_details['type'] == 'movie' else "series"`. -/
def ParsedTarget.contentType : ParsedTarget → ContentType
  | .movieT _ => ContentType.movie
  | _ => ContentType.series

/-- The result dictionary of `get_tmdb_details_from_api` (not in the
sources).  Modelled from the spec: `ResolvedMetadata` carries
`externalId, title, overview, posterUrl, releaseDate, rating, genres`;
the webhook only reads `tmdb_id` and spreads the rest into `base_doc`. -/
structure TmdbDetails where
  tmdb_id : Option String
  title : String
  overview : String
  poster : Option String
  release_date : Option String
  vote_average : Rat
  genres : List String
deriving DecidableEq, Repr

/-- Python truthiness of `tmdb_details.get("tmdb_id")`: the id is present
and is a non-empty string. -/
def tmdbIdTruthy : Option String → Bool
  | none => false
  | some s => s != ""

/-- MongoDB `$addToSet` with `$each`: append each new value that is not
already an element, in order, without duplicating values repeated inside
the `$each` list. -/
def addToSetEach (xs : List String) (new : List String) : List String :=
  new.foldl (fun acc l => if l ∈ acc then acc else acc ++ [l]) xs

/-- The release-merger update block of the webhook (`bot.py` lines
781-801): an unconditional `$pull` of the record with the same identity
key followed by a `$push` of the new record, together with a
`$addToSet`/`$each` of the parsed languages when that list is non-empty
(Python truthiness of `parsed_info.get('languages')`).  This is the net
effect on the single updated document of the one or two `update_one`
calls the code issues. -/
def mergeRelease (e : ContentEntry) (p : ParsedInfo) (messageId : Int) : ContentEntry :=
  let e1 := if p.languages.isEmpty then e
    else { e with languages := addToSetEach e.languages p.languages }
  match p.target with
  | .movieT q? =>
      let q := q?.getD "HD"
      { e1 with files := e1.files.filter (fun f => !(f.quality == q)) ++ [⟨q, messageId⟩] }
  | .packT s q =>
      { e1 with season_packs :=
          e1.season_packs.filter (fun pk => !(pk.season == s && pk.quality == q)) ++ [⟨s, q, messageId⟩] }
  | .episodeT s ep =>
      { e1 with episodes :=
          e1.episodes.filter (fun r => !(r.season == s && r.episode_number == ep)) ++ [⟨s, ep, messageId⟩] }

/-- Case-insensitive exact title match: the Mongo query
`{"title": {"$regex": "^" + re.escape(t) + "$", "$options": "i"}}`. -/
def titleMatchesCI (stored query : String) : Bool :=
  stored.toLower == query.toLower

/-- The `base_doc` built in the TMDb branch of
`get_or_create_content_entry`: the spread of `tmdb_details` plus the
`type` derived from the parsed kind and empty nested collections and
categories. -/
def baseDocOfTmdb (d : TmdbDetails) (target : ParsedTarget) (newId : String) : ContentEntry :=
  { id := newId, tmdb_id := d.tmdb_id, title := d.title, overview := d.overview,
    poster := d.poster, release_date := d.release_date, vote_average := d.vote_average,
    genres := d.genres, trailer_key := none, ctype := target.contentType,
    languages := [], episodes := [], season_packs := [], files := [], categories := [] }

/-- The `shell_doc` built in the placeholder branch of
`get_or_create_content_entry`. -/
def shellDoc (p : ParsedInfo) (newId : String) : ContentEntry :=
  { id := newId, tmdb_id := none, title := p.title,
    overview := "Details will be updated soon.",
    poster := some PLACEHOLDER_POSTER, release_date := none, vote_average := 0,
    genres := [], trailer_key := none, ctype := p.target.contentType,
    languages := [], episodes := [], season_packs := [], files := [], categories := [] }

/-- Result of `get_or_create_content_entry`: the returned document (the
Python function can in principle return `None` when the re-`find_one`
after an insert fails, which the caller checks), the new state of the
`movies` collection, and the argument of the `send_notification_to_channel`
call when one was made (`none` = no call). -/
structure ReconcileOut where
  entry : Option ContentEntry
  docs : List ContentEntry
  notifArg : Option (Option ContentEntry)
deriving Repr

/-- The placeholder (`else`) branch of `get_or_create_content_entry`:
look up a shell entry (`tmdb_id: None`) whose title matches
case-insensitively; create `shell_doc` when absent. -/
def getOrCreateShell (docs : List ContentEntry) (parsed : ParsedInfo)
    (freshId : String) : ReconcileOut :=
  match docs.find? (fun e => e.tmdb_id == none && titleMatchesCI e.title parsed.title) with
  | some existing => ⟨some existing, docs, none⟩
  | none =>
    let shell := shellDoc parsed freshId
    let docs2 := docs ++ [shell]
    let newly := docs2.find? (fun e => e.id == freshId)
    ⟨newly, docs2, some newly⟩

/-- `get_or_create_content_entry(tmdb_details, parsed_details)` over the
collection state `docs`; `freshId` is the `ObjectId` that `insert_one`
assigns when a document is created. -/
def get_or_create_content_entry (docs : List ContentEntry)
    (tmdb : Option TmdbDetails) (parsed : ParsedInfo) (freshId : String) : ReconcileOut :=
  match tmdb with
  | some d =>
    if tmdbIdTruthy d.tmdb_id then
      match docs.find? (fun e => e.tmdb_id == d.tmdb_id) with
      | some existing => ⟨some existing, docs, none⟩
      | none =>
        let base := baseDocOfTmdb d parsed.target freshId
        let docs2 := docs ++ [base]
        let newly := docs2.find? (fun e => e.tmdb_id == d.tmdb_id)
        ⟨newly, docs2, some newly⟩
    else
      getOrCreateShell docs parsed freshId
  | none => getOrCreateShell docs parsed freshId

/-- Observable outcome of one `send_notification_to_channel` call:
whether a `sendPhoto` request was attempted, whether the caption taken
was the "Coming Soon" teaser branch, and whether the message was pinned
afterwards. -/
structure NotifResult where
  attempted : Bool
  teaser : Bool
  pinned : Bool
deriving DecidableEq, Repr

/-- Python truthiness of `movie_data.get('poster')` being falsy or the
poster equalling the placeholder (`bot.py` line 120). -/
def posterMissingOrPlaceholder : Option String → Bool
  | none => true
  | some s => s == "" || s == PLACEHOLDER_POSTER

/-- `send_notification_to_channel(movie_data)`: returns immediately when
`NOTIFICATION_CHANNEL_ID` is unset or the poster is absent / the
placeholder; otherwise sends the photo (teaser caption iff
`"Coming Soon" in categories`) and, when the send response is ok, pins
iff `"Trending Now" in categories` and not coming-soon.  A call with no
document (`None`) raises inside the function's own `try` and is
swallowed. -/
def send_notification_to_channel (channelSet sendOk : Bool) :
    Option ContentEntry → NotifResult
  | none => ⟨false, false, false⟩
  | some m =>
    if !channelSet then ⟨false, false, false⟩
    else if posterMissingOrPlaceholder m.poster then ⟨false, false, false⟩
    else
      let comingSoon := m.categories.contains "Coming Soon"
      ⟨true, comingSoon, sendOk && m.categories.contains "Trending Now" && !comingSoon⟩

/-- The background scheduler's pending jobs: pairs of (job id, run date in
minutes).  APScheduler keys jobs by id. -/
abbrev Sched : Type := List (String × Int)

/-- `scheduler.add_job(..., id=key, run_date=rd, replace_existing=True)`:
replacing a job with the same id atomically removes the prior one and
installs the new one. -/
def addJob (s : Sched) (key : String) (runDate : Int) : Sched :=
  (List.filter (fun j => j.1 != key) s) ++ [(key, runDate)]

/-- Number of pending jobs with a given id. -/
def countKey (s : Sched) (key : String) : Nat :=
  (List.filter (fun j => j.1 == key) s).length

/-- The job id string `f'del_{chat_id}_{new_msg_id}'`. -/
def jobKey (chatId : Int) (msgId : Int) : String :=
  "del_" ++ toString chatId ++ "_" ++ toString msgId

/-- The fixed retention window, `timedelta(minutes=30)`. -/
def RETENTION_MINUTES : Int := 30

/-- `bson.ObjectId(s)` succeeds exactly on 24-character hex strings;
on anything else it raises `InvalidId`. -/
def isValidObjectId (s : String) : Bool :=
  s.length == 24 && s.toList.all (fun c =>
    c.isDigit || (('a' ≤ c) && (c ≤ 'f')) || (('A' ≤ c) && (c ≤ 'F')))

/-- Python `str.startswith(pre)`. -/
def pyStartsWith (s pre : String) : Bool :=
  pre.data.isPrefixOf s.data

/-- The numeric value of a non-empty all-digit character list; `none`
otherwise. -/
def digitsToNat : List Char → Option Nat
  | [] => none
  | cs => cs.foldl (fun acc c =>
      match acc with
      | none => none
      | some n => if c.isDigit then some (n * 10 + (c.toNat - 48)) else none) (some 0)

/-- Python `int(...)` for base 10 on a character list, restricted to the
shapes that can occur in a `_`-split token: an optional sign followed by
decimal digits (`str.split('_')` parts cannot contain underscores, and
tokens carry no whitespace). `none` models a raised `ValueError`. -/
def pyIntChars? (cs : List Char) : Option Int :=
  match cs with
  | '-' :: rest => (digitsToNat rest).map (fun n => -(n : Int))
  | '+' :: rest => (digitsToNat rest).map (fun n => (n : Int))
  | _ => (digitsToNat cs).map (fun n => (n : Int))

/-- Python `int(s)`. -/
def pyInt? (s : String) : Option Int := pyIntChars? s.data

/-- The target-location block of the `/start` handler (`bot.py` lines
820-840): from the `_`-split payload parts and the found content
document, compute `message_to_copy_id`.  `Except.error` models a Python
exception escaping from `int(...)`. -/
def lookupMessage (content : ContentEntry) (parts : List String) :
    Except Unit (Option Int) :=
  if parts.length == 3 && pyStartsWith (parts.getD 1 "") "S" then
    match pyIntChars? ((parts.getD 1 "").data.drop 1) with
    | none => Except.error ()
    | some seasonNum =>
      let quality := parts.getD 2 ""
      match content.season_packs.find? (fun p => p.season == seasonNum && p.quality == quality) with
      | some pack => Except.ok (some pack.message_id)
      | none => Except.ok none
  else if content.ctype == ContentType.series && parts.length == 3 then
    match pyInt? (parts.getD 1 ""), pyInt? (parts.getD 2 "") with
    | some sNum, some eNum =>
      match content.episodes.find? (fun ep => ep.season == sNum && ep.episode_number == eNum) with
      | some ep => Except.ok (some ep.message_id)
      | none => Except.ok none
    | _, _ => Except.error ()
  else if content.ctype == ContentType.movie && parts.length == 2 then
    let quality := parts.getD 1 ""
    match content.files.find? (fun f => f.quality == quality) with
    | some f => Except.ok (some f.message_id)
    | none => Except.ok none
  else Except.ok none

/-- The text of the `sendMessage` issued when `copyMessage` returns a
non-ok response. -/
def copyFailText : String :=
  "Error sending file. It might have been deleted from the channel."

/-- The text of the `sendMessage` issued when no matching nested record
exists. -/
def notFoundText : String := "Requested file/season not found."

/-- The text of the `sendMessage` issued from the `except` handler of the
`/start` command. -/
def unexpectedErrText : String := "An unexpected error occurred."

/-- Observable result of handling a `/start` payload: the plain texts
sent to the requester via `sendMessage`, the number of `copyMessage`
calls, the source message id of the copy attempt (if any), and the
scheduler state afterwards. -/
structure StartOut where
  sentTexts : List String
  copyCalls : Nat
  copySource : Option Int
  sched : Sched
deriving Repr

/-- The body of the `try` block of the `/start` handler with a payload:
parse the `ObjectId`, find the content document, locate the target
message, attempt the copy and schedule deletion or notify failure.
`copyResult` is the oracle for the `copyMessage` response
(`some newMsgId` = ok with that `result.message_id`, `none` = not ok). -/
def startInner (docs : List ContentEntry) (sched : Sched) (now : Int)
    (chatId : Int) (parts : List String) (copyResult : Option Int) :
    Except Unit StartOut :=
  let docIdStr := parts.headD ""
  if !(isValidObjectId docIdStr) then Except.error ()
  else
    match docs.find? (fun e => e.id == docIdStr) with
    | none => Except.ok ⟨[], 0, none, sched⟩
    | some content =>
      match lookupMessage content parts with
      | Except.error u => Except.error u
      | Except.ok none => Except.ok ⟨[notFoundText], 0, none, sched⟩
      | Except.ok (some mid) =>
        match copyResult with
        | some newId =>
          Except.ok ⟨[], 1, some mid, addJob sched (jobKey chatId newId) (now + RETENTION_MINUTES)⟩
        | none => Except.ok ⟨[copyFailText], 1, some mid, sched⟩

/-- The `/start`-with-payload handler including its `except` clause: any
exception is caught and answered with a best-effort error message. -/
def handleStartPayload (docs : List ContentEntry) (sched : Sched) (now : Int)
    (chatId : Int) (parts : List String) (copyResult : Option Int) : StartOut :=
  match startInner docs sched now chatId parts copyResult with
  | Except.ok r => r
  | Except.error _ => ⟨[unexpectedErrText], 0, none, sched⟩

/-- Split a character list at every character satisfying the predicate,
keeping empty groups (the semantics of Python `str.split(sep)`). -/
def splitOnPred (p : Char → Bool) : List Char → List (List Char)
  | [] => [[]]
  | c :: rest =>
    let r := splitOnPred p rest
    if p c then [] :: r
    else
      match r with
      | [] => [[c]]
      | h :: t => (c :: h) :: t

/-- Python `payload.split('_')`. -/
def pySplitUnderscore (s : String) : List String :=
  (splitOnPred (fun c => c == '_') s.data).map String.mk

/-- Python `text.split()` with no separator: the maximal non-empty runs
of non-whitespace characters. -/
def pySplit (s : String) : List String :=
  ((splitOnPred Char.isWhitespace s.data).filter (fun g => !g.isEmpty)).map String.mk

/-- Configuration read from the environment. -/
structure Config where
  adminChannelId : String
  botUsername : String
  notifChannelSet : Bool
deriving Repr

/-- Oracle values for the external calls made while handling one update. -/
structure Oracles where
  parseResult : Option ParsedInfo
  tmdbResult : Option TmdbDetails
  freshId : String
  notifSendOk : Bool
  copyResult : Option Int
deriving Repr

/-- Shared mutable state visible to the webhook. -/
structure World where
  docs : List ContentEntry
  sched : Sched
  now : Int

/-- The webhook's HTTP response: `jsonify(status='ok', ...)` or
`jsonify(status='error', ...)`. -/
inductive WebhookResponse where
  | ok (reason : Option String) : WebhookResponse
  | err (reason : String) : WebhookResponse
deriving DecidableEq, Repr

/-- One inbound Telegram update, after JSON decoding: a channel post
(with the chat id already stringified, the file name of its
video/document if any, and its message id), a user message, or any
other update shape. -/
inductive Update where
  | channelPost (chatId : String) (fileName : Option String) (messageId : Int) : Update
  | userMessage (chatId : Int) (text : String) : Update
  | otherUpdate : Update

/-- Everything observable about one webhook invocation. -/
structure WebhookOut where
  response : WebhookResponse
  docs : List ContentEntry
  sched : Sched
  sentTexts : List String
  copyCalls : Nat
  notifCalls : List (Option ContentEntry)
deriving Repr

/-- `movies.update_one({"_id": i}, ...)` combined for the merge block:
apply `mergeRelease` to the document with the given id. -/
def updateById (docs : List ContentEntry) (i : String)
    (f : ContentEntry → ContentEntry) : List ContentEntry :=
  docs.map (fun e => if e.id == i then f e else e)

/-- The list of `send_notification_to_channel` call arguments recorded
from one reconciliation. -/
def notifCallsOfArg : Option (Option ContentEntry) → List (Option ContentEntry)
  | some x => [x]
  | none => []

/-- The `'channel_post'` branch of `telegram_webhook`. -/
def handleChannelPost (cfg : Config) (o : Oracles) (w : World)
    (chatId : String) (fileName : Option String) (messageId : Int) : WebhookOut :=
  if !(chatId == cfg.adminChannelId) then
    ⟨.ok (some "not_admin_channel"), w.docs, w.sched, [], 0, []⟩
  else if (fileName.getD "") == "" then
    ⟨.ok (some "no_file_in_post"), w.docs, w.sched, [], 0, []⟩
  else
    match o.parseResult with
    | none => ⟨.ok (some "parsing_failed"), w.docs, w.sched, [], 0, []⟩
    | some p =>
      if p.title == "" then ⟨.ok (some "parsing_failed"), w.docs, w.sched, [], 0, []⟩
      else
        match get_or_create_content_entry w.docs o.tmdbResult p o.freshId with
        | ⟨none, docs2, notifArg⟩ =>
            ⟨.err "db_entry_failed", docs2, w.sched, [], 0, notifCallsOfArg notifArg⟩
        | ⟨some entry, docs2, notifArg⟩ =>
            ⟨.ok none, updateById docs2 entry.id (fun e => mergeRelease e p messageId),
             w.sched, [], 0, notifCallsOfArg notifArg⟩

/-- The `'message'` branch of `telegram_webhook`. -/
def handleMessage (cfg : Config) (o : Oracles) (w : World)
    (chatId : Int) (text : String) : WebhookOut :=
  if pyStartsWith text "/start" then
    match pySplit text with
    | _ :: payload :: _ =>
      let r := handleStartPayload w.docs w.sched w.now chatId (pySplitUnderscore payload) o.copyResult
      ⟨.ok none, w.docs, r.sched, r.sentTexts, r.copyCalls, []⟩
    | _ =>
      let welcome := "👋 Welcome to " ++ cfg.botUsername ++ "!\n\nBrowse all our content on our website."
      ⟨.ok none, w.docs, w.sched, [welcome], 0, []⟩
  else ⟨.ok none, w.docs, w.sched, [], 0, []⟩

/-- `telegram_webhook` over one decoded update. -/
def telegram_webhook (cfg : Config) (o : Oracles) (w : World) (u : Update) : WebhookOut :=
  match u with
  | .channelPost chatId fileName messageId => handleChannelPost cfg o w chatId fileName messageId
  | .userMessage chatId text => handleMessage cfg o w chatId text
  | .otherUpdate => ⟨.ok none, w.docs, w.sched, [], 0, []⟩

/-- A concrete content entry used to instantiate witnesses. -/
def entryA : ContentEntry :=
  { id := "aaaaaaaaaaaaaaaaaaaaaaaa", tmdb_id := none, title := "Example Movie",
    overview := "", poster := some PLACEHOLDER_POSTER, release_date := none,
    vote_average := 0, genres := [], trailer_key := none, ctype := ContentType.movie,
    languages := ["Hindi"], episodes := [], season_packs := [], files := [],
    categories := [] }

/-- A concrete parsed release used to instantiate witnesses. -/
def parsedMovie720 : ParsedInfo :=
  { title := "Example Movie", year := some 2021, languages := ["Bengali"],
    target := ParsedTarget.movieT (some "720p") }

/-- Number of `files` records carrying a given quality. -/
def qualityCount (files : List FileRec) (q : String) : Nat :=
  (files.filter (fun f => f.quality == q)).length

/-- The invariant of §3: at most one `files` entry per distinct quality. -/
def filesAtMostOnePerQuality (files : List FileRec) : Prop :=
  ∀ q, qualityCount files q ≤ 1

/-- A second concrete parsed movie release at quality 1080p. -/
def parsedMovie1080 : ParsedInfo :=
  { title := "Example Movie", year := some 2021, languages := [],
    target := ParsedTarget.movieT (some "1080p") }

/-- The invariant of §3: at most one `episodes` record per distinct
`(season, episode)` pair. -/
def episodesAtMostOnePerKey (eps : List EpisodeRec) : Prop :=
  ∀ s ep, ((eps.filter (fun r => r.season == s && r.episode_number == ep)).length) ≤ 1

/-- A concrete series entry holding episode S1E3 at message 100. -/
def entryS : ContentEntry :=
  { entryA with
    id := "bbbbbbbbbbbbbbbbbbbbbbbb",
    title := "Show Name",
    ctype := ContentType.series,
    languages := [],
    episodes := [⟨1, 3, 100⟩] }

/-- A concrete parsed single-episode release S1E3. -/
def parsedEp13 : ParsedInfo :=
  { title := "Show Name", year := none, languages := [],
    target := ParsedTarget.episodeT 1 3 }

/-- A concrete parsed release with no languages. -/
def parsedNoLang : ParsedInfo :=
  { title := "Example Movie", year := none, languages := [],
    target := ParsedTarget.movieT none }

/-- A concrete catalog-backed entry with external id `tt1`. -/
def entryT : ContentEntry :=
  { entryA with
    id := "cccccccccccccccccccccccc",
    tmdb_id := some "tt1",
    title := "Catalog Title",
    overview := "stored overview",
    poster := some "https://img.example/p.jpg",
    release_date := some "2020-01-01",
    vote_average := 7,
    genres := ["Drama"],
    categories := ["Trending Now"] }

/-- A concrete resolved-metadata record carrying the same external id
but different field values. -/
def tmdbD : TmdbDetails :=
  { tmdb_id := some "tt1", title := "Fresh Title", overview := "fresh overview",
    poster := some "https://img.example/q.jpg", release_date := some "2024-05-05",
    vote_average := 8, genres := ["Action"] }

/-- A concrete series entry carrying a season-2 pack at 1080p. -/
def entryP : ContentEntry :=
  { entryA with
    id := "abcdefabcdefabcdefabcdef",
    title := "Pack Show",
    ctype := ContentType.series,
    languages := [],
    season_packs := [⟨2, "1080p", 77⟩] }

/-- A concrete movie entry carrying a 720p file at message 55. -/
def entryM : ContentEntry :=
  { entryA with
    id := "ffffffffffffffffffffffff",
    title := "Example Movie",
    languages := [],
    files := [⟨"720p", 55⟩] }

/-- A concrete configuration for witnesses. -/
def cfgW : Config := ⟨"-100123", "MovieBot", true⟩

/-- Concrete oracle values: parse failed, no catalog data. -/
def oW : Oracles := ⟨none, none, "", true, none⟩

/-- A concrete world with an empty store and scheduler. -/
def wW : World := ⟨[], [], 0⟩

/-- Concrete oracle values for the C10 witness: parse succeeded, catalog
lookup returned nothing. -/
def oC10 : Oracles :=
  ⟨some parsedMovie720, none, "eeeeeeeeeeeeeeeeeeeeeeee", true, none⟩

/-- The `files` array after a `movie` merge: pull by quality, then push. -/
theorem mergeRelease_files (e : ContentEntry) (p : ParsedInfo) (m : Int)
    (q? : Option String) (h : p.target = ParsedTarget.movieT q?) :
    (mergeRelease e p m).files =
      e.files.filter (fun f => !(f.quality == q?.getD "HD")) ++ [⟨q?.getD "HD", m⟩] := by
  unfold mergeRelease
  rw [h]
  cases hl : p.languages.isEmpty <;> simp [hl]

/-- The `episodes` array after a `series` (episode) merge. -/
theorem mergeRelease_episodes (e : ContentEntry) (p : ParsedInfo) (m : Int)
    (s ep : Int) (h : p.target = ParsedTarget.episodeT s ep) :
    (mergeRelease e p m).episodes =
      e.episodes.filter (fun r => !(r.season == s && r.episode_number == ep)) ++ [⟨s, ep, m⟩] := by
  unfold mergeRelease
  rw [h]
  cases hl : p.languages.isEmpty <;> simp [hl]

/-- The `languages` array after any merge. -/
theorem mergeRelease_languages (e : ContentEntry) (p : ParsedInfo) (m : Int) :
    (mergeRelease e p m).languages =
      if p.languages.isEmpty then e.languages else addToSetEach e.languages p.languages := by
  unfold mergeRelease
  cases p.target <;> cases hl : p.languages.isEmpty <;> simp [hl]

theorem qualityCount_append (a b : List FileRec) (q : String) :
    qualityCount (a ++ b) q = qualityCount a q + qualityCount b q := by
  simp [qualityCount, List.filter_append]

theorem qualityCount_pull_self (fs : List FileRec) (q : String) :
    qualityCount (fs.filter (fun f => !(f.quality == q))) q = 0 := by
  unfold qualityCount
  induction fs with
  | nil => rfl
  | cons f t ih =>
    by_cases hf : f.quality = q
    · have h1 : (!(f.quality == q)) = false := by simp [hf]
      simp only [List.filter_cons, h1, Bool.false_eq_true, if_false]
      exact ih
    · have h1 : (!(f.quality == q)) = true := by simp [hf]
      have h2 : (f.quality == q) = false := by simp [hf]
      simp only [List.filter_cons, h1, if_true]
      simp only [List.filter_cons, h2, Bool.false_eq_true, if_false]
      exact ih

theorem qualityCount_pull_other (fs : List FileRec) (q q' : String) (h : q' ≠ q) :
    qualityCount (fs.filter (fun f => !(f.quality == q))) q' = qualityCount fs q' := by
  unfold qualityCount
  induction fs with
  | nil => rfl
  | cons f t ih =>
    by_cases hf : f.quality = q
    · have h1 : (!(f.quality == q)) = false := by simp [hf]
      have h2 : (f.quality == q') = false := by
        simp only [hf, beq_eq_false_iff_ne, ne_eq]
        exact fun hc => h hc.symm
      simp only [List.filter_cons, h1, h2, Bool.false_eq_true, if_false]
      exact ih
    · have h1 : (!(f.quality == q)) = true := by simp [hf]
      by_cases hq : f.quality = q'
      · have h2 : (f.quality == q') = true := by simp [hq]
        simp only [List.filter_cons, h1, h2, if_true, List.length_cons]
        omega
      · have h2 : (f.quality == q') = false := by simp [hq]
        simp only [List.filter_cons, h1, if_true]
        simp only [List.filter_cons, h2, Bool.false_eq_true, if_false]
        exact ih

/-- Generic: filtering away a predicate and keeping it partition the length. -/
theorem length_filter_not_add {α : Type} (pred : α → Bool) (l : List α) :
    (l.filter (fun a => !(pred a))).length + (l.filter pred).length = l.length := by
  induction l with
  | nil => rfl
  | cons a t ih => cases h : pred a <;> simp [h] <;> omega

theorem qualityCount_singleton (q0 q : String) (m : Int) :
    qualityCount [⟨q0, m⟩] q = if q0 = q then 1 else 0 := by
  by_cases h : q0 = q <;> simp [qualityCount, h]

theorem mem_addToSetEach (new xs : List String) (l : String) :
    l ∈ addToSetEach xs new ↔ l ∈ xs ∨ l ∈ new := by
  induction new generalizing xs with
  | nil => simp [addToSetEach]
  | cons n t ih =>
    rw [show addToSetEach xs (n :: t) = addToSetEach (if n ∈ xs then xs else xs ++ [n]) t from rfl]
    rw [ih]
    by_cases hn : n ∈ xs
    · by_cases hl : l = n
      · simp [hn, hl]
      · simp [hn, hl]
    · simp only [if_neg hn, List.mem_append, List.mem_singleton, List.mem_cons]
      tauto

theorem nodup_addToSetEach (new xs : List String) (h : xs.Nodup) :
    (addToSetEach xs new).Nodup := by
  induction new generalizing xs with
  | nil => exact h
  | cons n t ih =>
    rw [show addToSetEach xs (n :: t) = addToSetEach (if n ∈ xs then xs else xs ++ [n]) t from rfl]
    apply ih
    by_cases hn : n ∈ xs
    · simpa [hn] using h
    · rw [if_neg hn]
      refine List.Nodup.append h (List.nodup_singleton n) ?_
      intro a ha hb
      rw [List.mem_singleton] at hb
      exact hn (hb ▸ ha)

/-- C1. For every `movie` entry, the merger keeps at most one `files`
record per distinct quality: the invariant is preserved by every merge,
ingesting two distinct qualities starting from an empty `files` list
yields exactly two records, and ingesting the same quality twice in
sequence yields exactly one, because the merge first `$pull`s the record
with that quality and then `$push`es the new `{quality, message_id}`
record. -/
theorem C1_movie_files_replace_by_key :
    (∀ (e : ContentEntry) (p : ParsedInfo) (q? : Option String) (m : Int),
      p.target = ParsedTarget.movieT q? →
      filesAtMostOnePerQuality e.files →
      filesAtMostOnePerQuality ((mergeRelease e p m).files))
    ∧ (∀ (e : ContentEntry) (p1 p2 : ParsedInfo) (q1 q2 : String) (m1 m2 : Int),
      e.files = [] →
      p1.target = ParsedTarget.movieT (some q1) →
      p2.target = ParsedTarget.movieT (some q2) →
      q1 ≠ q2 →
      ((mergeRelease (mergeRelease e p1 m1) p2 m2).files).length = 2)
    ∧ (∀ (e : ContentEntry) (p1 p2 : ParsedInfo) (q : String) (m1 m2 : Int),
      e.files = [] →
      p1.target = ParsedTarget.movieT (some q) →
      p2.target = ParsedTarget.movieT (some q) →
      ((mergeRelease (mergeRelease e p1 m1) p2 m2).files).length = 1) := by
  refine ⟨?_, ?_, ?_⟩
  · intro e p q? m hT hInv q
    rw [mergeRelease_files e p m q? hT]
    rw [qualityCount_append, qualityCount_singleton]
    by_cases hq : q = q?.getD "HD"
    · rw [hq, qualityCount_pull_self]
      simp
    · rw [qualityCount_pull_other _ _ _ hq]
      have h2 : ¬ (q?.getD "HD" = q) := fun hc => hq hc.symm
      rw [if_neg h2]
      have := hInv q
      omega
  · intro e p1 p2 q1 q2 m1 m2 hfiles hT1 hT2 hne
    have f1 : (mergeRelease e p1 m1).files = [⟨q1, m1⟩] := by
      rw [mergeRelease_files e p1 m1 (some q1) hT1, hfiles]
      rfl
    rw [mergeRelease_files _ p2 m2 (some q2) hT2, f1]
    simp [List.filter_cons, hne]
  · intro e p1 p2 q m1 m2 hfiles hT1 hT2
    have f1 : (mergeRelease e p1 m1).files = [⟨q, m1⟩] := by
      rw [mergeRelease_files e p1 m1 (some q) hT1, hfiles]
      rfl
    rw [mergeRelease_files _ p2 m2 (some q) hT2, f1]
    simp [List.filter_cons]

/-- Witness for C1 at concrete inputs. -/
theorem C1_movie_files_replace_by_key_witness :
    ((mergeRelease (mergeRelease entryA parsedMovie720 7) parsedMovie1080 8).files).length = 2
    ∧ ((mergeRelease (mergeRelease entryA parsedMovie720 7) parsedMovie720 8).files).length = 1
    ∧ filesAtMostOnePerQuality ((mergeRelease entryA parsedMovie720 7).files) :=
  ⟨C1_movie_files_replace_by_key.2.1 entryA parsedMovie720 parsedMovie1080 "720p" "1080p" 7 8
      rfl rfl rfl (by decide),
   C1_movie_files_replace_by_key.2.2 entryA parsedMovie720 parsedMovie720 "720p" 7 8 rfl rfl rfl,
   C1_movie_files_replace_by_key.1 entryA parsedMovie720 (some "720p") 7 rfl
      (fun q => by simp [entryA, qualityCount])⟩

/-- C2. Re-ingesting a release with an already-stored `(season, episode)`
pair but a different message reference replaces the stored reference:
the length of `episodes` is unchanged, the new record is present, every
record with that key carries the new reference, and all other records
are untouched. -/
theorem C2_episode_replace_same_length :
    ∀ (e : ContentEntry) (p : ParsedInfo) (s ep m m0 : Int),
    p.target = ParsedTarget.episodeT s ep →
    episodesAtMostOnePerKey e.episodes →
    (⟨s, ep, m0⟩ : EpisodeRec) ∈ e.episodes →
    m0 ≠ m →
    ((mergeRelease e p m).episodes.length = e.episodes.length
     ∧ (⟨s, ep, m⟩ : EpisodeRec) ∈ (mergeRelease e p m).episodes
     ∧ (∀ r ∈ (mergeRelease e p m).episodes,
          r.season = s → r.episode_number = ep → r.message_id = m)
     ∧ (∀ r ∈ e.episodes, ¬(r.season = s ∧ r.episode_number = ep) →
          r ∈ (mergeRelease e p m).episodes)) := by
  intro e p s ep m m0 hT hInv hMem _
  have hform := mergeRelease_episodes e p m s ep hT
  refine ⟨?_, ?_, ?_, ?_⟩
  · rw [hform]
    have hpart := length_filter_not_add
      (fun r : EpisodeRec => r.season == s && r.episode_number == ep) e.episodes
    have hle := hInv s ep
    have hge :
        1 ≤ ((e.episodes.filter (fun r => r.season == s && r.episode_number == ep)).length) := by
      have : (⟨s, ep, m0⟩ : EpisodeRec) ∈
          e.episodes.filter (fun r => r.season == s && r.episode_number == ep) := by
        rw [List.mem_filter]
        exact ⟨hMem, by simp⟩
      calc 1 ≤ 1 := le_refl 1
        _ ≤ _ := List.length_pos.mpr (List.ne_nil_of_mem this)
    simp only [List.length_append, List.length_cons, List.length_nil]
    omega
  · rw [hform]
    simp
  · rw [hform]
    intro r hr hs hep
    rcases List.mem_append.mp hr with hl | hr2
    · rw [List.mem_filter] at hl
      exfalso
      have := hl.2
      simp [hs, hep] at this
    · rw [List.mem_singleton] at hr2
      rw [hr2]
  · rw [hform]
    intro r hr hnot
    apply List.mem_append.mpr
    left
    rw [List.mem_filter]
    refine ⟨hr, ?_⟩
    by_cases hs : r.season = s
    · by_cases hep : r.episode_number = ep
      · exact absurd ⟨hs, hep⟩ hnot
      · simp [hs, hep]
    · simp [hs]

theorem filter_singleton_le_one {α : Type} (p : α → Bool) (a : α) :
    ((List.filter p [a]).length) ≤ 1 := by
  cases h : p a <;> simp [List.filter, h]

/-- Witness for C2 at concrete inputs. -/
theorem C2_episode_replace_same_length_witness :
    (mergeRelease entryS parsedEp13 200).episodes.length = entryS.episodes.length
    ∧ (⟨1, 3, 200⟩ : EpisodeRec) ∈ (mergeRelease entryS parsedEp13 200).episodes :=
  ⟨(C2_episode_replace_same_length entryS parsedEp13 1 3 200 100 rfl
      (fun _ _ => filter_singleton_le_one _ _) (by decide) (by decide)).1,
   (C2_episode_replace_same_length entryS parsedEp13 1 3 200 100 rfl
      (fun _ _ => filter_singleton_le_one _ _) (by decide) (by decide)).2.1⟩

/-- C9. After every merge the `languages` list holds exactly the union of
the previous languages and the newly parsed ones: membership is the
union, growth is monotone, no duplicates are introduced, and a merge
with an empty parsed language list leaves `languages` unchanged. -/
theorem C9_languages_union :
    ∀ (e : ContentEntry) (p : ParsedInfo) (m : Int),
    ((∀ l, l ∈ (mergeRelease e p m).languages ↔ (l ∈ e.languages ∨ l ∈ p.languages))
     ∧ (∀ l, l ∈ e.languages → l ∈ (mergeRelease e p m).languages)
     ∧ (e.languages.Nodup → ((mergeRelease e p m).languages).Nodup)
     ∧ (p.languages = [] → (mergeRelease e p m).languages = e.languages)) := by
  intro e p m
  have hl := mergeRelease_languages e p m
  by_cases hE : p.languages.isEmpty
  · have hnil : p.languages = [] := by simpa [List.isEmpty_iff] using hE
    refine ⟨?_, ?_, ?_, ?_⟩ <;> simp [hl, hE, hnil]
  · refine ⟨?_, ?_, ?_, ?_⟩
    · intro l
      rw [hl, if_neg hE]
      exact mem_addToSetEach _ _ _
    · intro l hm
      rw [hl, if_neg hE]
      exact (mem_addToSetEach _ _ _).mpr (Or.inl hm)
    · intro hnd
      rw [hl, if_neg hE]
      exact nodup_addToSetEach _ _ hnd
    · intro hnil
      exact absurd (by simp [hnil]) hE

/-- Witness for C9 at concrete inputs. -/
theorem C9_languages_union_witness :
    ((mergeRelease entryA parsedMovie720 5).languages.Nodup)
    ∧ (mergeRelease entryA parsedNoLang 5).languages = entryA.languages :=
  ⟨(C9_languages_union entryA parsedMovie720 5).2.2.1 (by decide),
   (C9_languages_union entryA parsedNoLang 5).2.2.2 rfl⟩

theorem find?_append_none {α : Type} (p : α → Bool) (l₁ l₂ : List α)
    (h : l₁.find? p = none) : (l₁ ++ l₂).find? p = l₂.find? p := by
  induction l₁ with
  | nil => simp
  | cons a t ih =>
    cases hp : p a
    · simp only [List.cons_append, List.find?, hp] at h ⊢
      exact ih h
    · simp [List.find?, hp] at h

/-- C3. When the resolved metadata carries a truthy `tmdb_id` that
matches an existing document, the reconciler returns that document with
every field untouched, leaves the collection unchanged, and makes no
notification call. -/
theorem C3_existing_external_id_first_write_wins :
    ∀ (docs : List ContentEntry) (d : TmdbDetails) (parsed : ParsedInfo)
      (freshId : String) (e0 : ContentEntry),
    tmdbIdTruthy d.tmdb_id = true →
    docs.find? (fun e => e.tmdb_id == d.tmdb_id) = some e0 →
    get_or_create_content_entry docs (some d) parsed freshId =
      ⟨some e0, docs, none⟩ := by
  intro docs d parsed freshId e0 hT hF
  unfold get_or_create_content_entry
  simp [hT, hF]

/-- Witness for C3 at concrete inputs. -/
theorem C3_existing_external_id_first_write_wins_witness :
    get_or_create_content_entry [entryT] (some tmdbD) parsedMovie720 "dddddddddddddddddddddddd" =
      ⟨some entryT, [entryT], none⟩ :=
  C3_existing_external_id_first_write_wins [entryT] tmdbD parsedMovie720
    "dddddddddddddddddddddddd" entryT (by decide) (by decide)

/-- C4. When metadata resolution returned nothing and no shell entry
matches the parsed title case-insensitively, the reconciler creates a
shell entry with `tmdb_id = None` and the placeholder poster, and the
creation-time announcement call is skipped because the poster equals the
placeholder (even with the notification channel configured). -/
theorem C4_shell_creation_announcement_skipped :
    ∀ (docs : List ContentEntry) (parsed : ParsedInfo) (freshId : String),
    docs.find? (fun e => e.tmdb_id == none && titleMatchesCI e.title parsed.title) = none →
    (∀ e ∈ docs, e.id ≠ freshId) →
    (get_or_create_content_entry docs none parsed freshId =
       ⟨some (shellDoc parsed freshId), docs ++ [shellDoc parsed freshId],
        some (some (shellDoc parsed freshId))⟩
     ∧ (shellDoc parsed freshId).tmdb_id = none
     ∧ (shellDoc parsed freshId).poster = some PLACEHOLDER_POSTER
     ∧ ∀ (channelSet sendOk : Bool),
         (send_notification_to_channel channelSet sendOk
           (some (shellDoc parsed freshId))).attempted = false) := by
  intro docs parsed freshId hF hFresh
  have h1 : docs.find? (fun e => e.id == freshId) = none := by
    rw [List.find?_eq_none]
    intro e he
    simpa using hFresh e he
  have hshell : (docs ++ [shellDoc parsed freshId]).find? (fun e => e.id == freshId) =
      some (shellDoc parsed freshId) := by
    rw [find?_append_none _ _ _ h1]
    simp [List.find?, shellDoc]
  refine ⟨?_, rfl, rfl, ?_⟩
  · unfold get_or_create_content_entry getOrCreateShell
    rw [hF]
    simp only []
    rw [hshell]
  · intro channelSet sendOk
    cases channelSet <;>
      simp [send_notification_to_channel, shellDoc, posterMissingOrPlaceholder]

/-- Witness for C4 at concrete inputs. -/
theorem C4_shell_creation_announcement_skipped_witness :
    (get_or_create_content_entry [] none parsedMovie720 "eeeeeeeeeeeeeeeeeeeeeeee" =
       ⟨some (shellDoc parsedMovie720 "eeeeeeeeeeeeeeeeeeeeeeee"),
        [shellDoc parsedMovie720 "eeeeeeeeeeeeeeeeeeeeeeee"],
        some (some (shellDoc parsedMovie720 "eeeeeeeeeeeeeeeeeeeeeeee"))⟩)
    ∧ (send_notification_to_channel true true
        (some (shellDoc parsedMovie720 "eeeeeeeeeeeeeeeeeeeeeeee"))).attempted = false :=
  ⟨(C4_shell_creation_announcement_skipped [] parsedMovie720 "eeeeeeeeeeeeeeeeeeeeeeee"
      rfl (by simp)).1,
   (C4_shell_creation_announcement_skipped [] parsedMovie720 "eeeeeeeeeeeeeeeeeeeeeeee"
      rfl (by simp)).2.2.2 true true⟩

/-- Season-pack branch of `lookupMessage` for a three-part token whose
middle part starts with `S` and parses as an integer. -/
theorem lookupMessage_pack (c : ContentEntry) (idStr sPart q : String) (n : Int)
    (hS : pyStartsWith sPart "S" = true) (hN : pyIntChars? (sPart.data.drop 1) = some n) :
    lookupMessage c [idStr, sPart, q] =
      match c.season_packs.find? (fun p => p.season == n && p.quality == q) with
      | some pack => Except.ok (some pack.message_id)
      | none => Except.ok none := by
  unfold lookupMessage
  simp only [List.drop_one] at hN
  simp [hS, hN]

/-- Evaluation of the `/start` handler when decoding succeeds and a
target message is located. -/
theorem handleStartPayload_found (docs : List ContentEntry) (sched : Sched)
    (now chatId : Int) (parts : List String) (copyResult : Option Int)
    (c : ContentEntry) (mid : Int)
    (hValid : isValidObjectId (parts.headD "") = true)
    (hFind : docs.find? (fun e => e.id == parts.headD "") = some c)
    (hLook : lookupMessage c parts = Except.ok (some mid)) :
    handleStartPayload docs sched now chatId parts copyResult =
      match copyResult with
      | some newId =>
          ⟨[], 1, some mid, addJob sched (jobKey chatId newId) (now + RETENTION_MINUTES)⟩
      | none => ⟨[copyFailText], 1, some mid, sched⟩ := by
  unfold handleStartPayload startInner
  simp only [hValid, Bool.not_true, Bool.false_eq_true, if_false, hFind, hLook]
  cases copyResult <;> rfl

/-- Evaluation of the `/start` handler when decoding succeeds but no
matching nested record exists. -/
theorem handleStartPayload_notFound (docs : List ContentEntry) (sched : Sched)
    (now chatId : Int) (parts : List String) (copyResult : Option Int)
    (c : ContentEntry)
    (hValid : isValidObjectId (parts.headD "") = true)
    (hFind : docs.find? (fun e => e.id == parts.headD "") = some c)
    (hLook : lookupMessage c parts = Except.ok none) :
    handleStartPayload docs sched now chatId parts copyResult =
      ⟨[notFoundText], 0, none, sched⟩ := by
  unfold handleStartPayload startInner
  simp only [hValid, Bool.not_true, Bool.false_eq_true, if_false, hFind, hLook]

/-- C5. A token `<entryId>_S<season>_<quality>` against an existing
entry: when the entry's `season_packs` holds a record with exactly that
season and quality, resolution delivers that pack's message reference
(one copy attempt of exactly that message); when no such record exists,
the requester is sent the "not found" notice — not an error message —
and no copy is attempted. -/
theorem C5_season_pack_token_resolution :
    ∀ (docs : List ContentEntry) (sched : Sched) (now chatId : Int)
      (idStr sPart q : String) (n : Int) (copyResult : Option Int)
      (c : ContentEntry),
    isValidObjectId idStr = true →
    docs.find? (fun e => e.id == idStr) = some c →
    pyStartsWith sPart "S" = true →
    pyIntChars? (sPart.data.drop 1) = some n →
    ((∀ pk, c.season_packs.find? (fun p => p.season == n && p.quality == q) = some pk →
        (handleStartPayload docs sched now chatId [idStr, sPart, q] copyResult).copySource
            = some pk.message_id
        ∧ (handleStartPayload docs sched now chatId [idStr, sPart, q] copyResult).copyCalls = 1)
     ∧ (c.season_packs.find? (fun p => p.season == n && p.quality == q) = none →
        handleStartPayload docs sched now chatId [idStr, sPart, q] copyResult =
          ⟨[notFoundText], 0, none, sched⟩)) := by
  intro docs sched now chatId idStr sPart q n copyResult c hValid hFind hS hN
  constructor
  · intro pk hpk
    have hL := lookupMessage_pack c idStr sPart q n hS hN
    rw [hpk] at hL
    have hH := handleStartPayload_found docs sched now chatId [idStr, sPart, q]
      copyResult c pk.message_id hValid hFind hL
    cases copyResult <;> simp [hH]
  · intro hnone
    have hL := lookupMessage_pack c idStr sPart q n hS hN
    rw [hnone] at hL
    exact handleStartPayload_notFound docs sched now chatId [idStr, sPart, q]
      copyResult c hValid hFind hL

/-- Witness for C5 at concrete inputs. -/
theorem C5_season_pack_token_resolution_witness :
    ((handleStartPayload [entryP] [] 0 42 ["abcdefabcdefabcdefabcdef", "S2", "1080p"]
        (some 99)).copySource = some 77)
    ∧ (handleStartPayload [entryP] [] 0 42 ["abcdefabcdefabcdefabcdef", "S3", "1080p"]
        (some 99) = ⟨[notFoundText], 0, none, []⟩) :=
  ⟨((C5_season_pack_token_resolution [entryP] [] 0 42 "abcdefabcdefabcdefabcdef" "S2" "1080p"
      2 (some 99) entryP (by decide) (by decide) (by decide) (by decide)).1
      ⟨2, "1080p", 77⟩ (by decide)).1,
   (C5_season_pack_token_resolution [entryP] [] 0 42 "abcdefabcdefabcdefabcdef" "S3" "1080p"
      3 (some 99) entryP (by decide) (by decide) (by decide) (by decide)).2 (by decide)⟩

theorem countKey_addJob (s : Sched) (k : String) (rd : Int) :
    countKey (addJob s k rd) k = 1 := by
  unfold countKey addJob
  rw [List.filter_append]
  have h : List.filter (fun j => j.1 == k) (List.filter (fun j => j.1 != k) s) = [] := by
    induction s with
    | nil => rfl
    | cons a t ih =>
      by_cases ha : a.1 = k
      · have h1 : (a.1 != k) = false := by simp [ha]
        simp only [List.filter_cons, h1, Bool.false_eq_true, if_false]
        exact ih
      · have h1 : (a.1 != k) = true := by simp [ha]
        have h2 : (a.1 == k) = false := by simp [ha]
        simp only [List.filter_cons, h1, if_true]
        simp only [List.filter_cons, h2, Bool.false_eq_true, if_false]
        exact ih
  rw [h]
  simp

/-- C6. Deletion-job scheduling is keyed and idempotent: the job id is
the deterministic `del_<chat>_<copiedMsg>` string, a newly scheduled job
leaves exactly one pending job under its key, scheduling a second job
with the same key replaces the first (still exactly one pending job),
and after a successful delivery the handler's scheduler state is exactly
the previous state with the job `(jobKey chat newMsg, now + 30 min)`
installed. -/
theorem C6_deletion_job_keyed_idempotent :
    (∀ (s : Sched) (k : String) (rd : Int), countKey (addJob s k rd) k = 1)
    ∧ (∀ (s : Sched) (k : String) (rd1 rd2 : Int),
        countKey (addJob (addJob s k rd1) k rd2) k = 1)
    ∧ (∀ (docs : List ContentEntry) (sched : Sched) (now chatId : Int)
         (parts : List String) (newId : Int) (c : ContentEntry) (mid : Int),
        isValidObjectId (parts.headD "") = true →
        docs.find? (fun e => e.id == parts.headD "") = some c →
        lookupMessage c parts = Except.ok (some mid) →
        (handleStartPayload docs sched now chatId parts (some newId)).sched =
          addJob sched (jobKey chatId newId) (now + RETENTION_MINUTES)) := by
  refine ⟨fun s k rd => countKey_addJob s k rd,
          fun s k rd1 rd2 => countKey_addJob _ k rd2, ?_⟩
  intro docs sched now chatId parts newId c mid hValid hFind hLook
  rw [handleStartPayload_found docs sched now chatId parts (some newId) c mid hValid hFind hLook]

/-- Witness for C6 at concrete inputs. -/
theorem C6_deletion_job_keyed_idempotent_witness :
    countKey (addJob (addJob [] (jobKey 42 99) 30) (jobKey 42 99) 31) (jobKey 42 99) = 1
    ∧ (handleStartPayload [entryM] [] 0 42 ["ffffffffffffffffffffffff", "720p"]
        (some 99)).sched = addJob [] (jobKey 42 99) (0 + RETENTION_MINUTES) :=
  ⟨C6_deletion_job_keyed_idempotent.2.1 [] (jobKey 42 99) 30 31,
   C6_deletion_job_keyed_idempotent.2.2 [entryM] [] 0 42
     ["ffffffffffffffffffffffff", "720p"] 99 entryM 55
     (by decide) (by decide) rfl⟩

/-- C7. When the `copyMessage` call fails (non-ok response) for a located
target, the requester is sent the plain-text failure notice instead of
the file, no deletion job is scheduled (the scheduler is unchanged), and
the copy is attempted exactly once — never retried. -/
theorem C7_copy_failure_notice_no_retry :
    ∀ (docs : List ContentEntry) (sched : Sched) (now chatId : Int)
      (parts : List String) (c : ContentEntry) (mid : Int),
    isValidObjectId (parts.headD "") = true →
    docs.find? (fun e => e.id == parts.headD "") = some c →
    lookupMessage c parts = Except.ok (some mid) →
    handleStartPayload docs sched now chatId parts none =
      ⟨[copyFailText], 1, some mid, sched⟩ := by
  intro docs sched now chatId parts c mid hValid hFind hLook
  rw [handleStartPayload_found docs sched now chatId parts none c mid hValid hFind hLook]

/-- Witness for C7 at concrete inputs. -/
theorem C7_copy_failure_notice_no_retry_witness :
    handleStartPayload [entryM] [] 0 42 ["ffffffffffffffffffffffff", "720p"] none =
      ⟨[copyFailText], 1, some 55, []⟩ :=
  C7_copy_failure_notice_no_retry [entryM] [] 0 42 ["ffffffffffffffffffffffff", "720p"]
    entryM 55 (by decide) (by decide) rfl

/-- C8. Per-event failures are contained: a channel post from a chat
other than the designated source channel is acknowledged with `ok` and
leaves the content store and scheduler untouched; a post whose filename
cannot be parsed (no title) is skipped with an `ok` response and an
unchanged store; and an exception raised while processing a `/start`
command payload is caught, answered with a best-effort error message to
the requester, and still acknowledged with `ok` — the store untouched. -/
theorem C8_per_event_containment :
    (∀ (cfg : Config) (o : Oracles) (w : World) (chatId : String)
       (fn : Option String) (mid : Int),
      chatId ≠ cfg.adminChannelId →
      (telegram_webhook cfg o w (Update.channelPost chatId fn mid)).response
          = WebhookResponse.ok (some "not_admin_channel")
      ∧ (telegram_webhook cfg o w (Update.channelPost chatId fn mid)).docs = w.docs
      ∧ (telegram_webhook cfg o w (Update.channelPost chatId fn mid)).sched = w.sched)
    ∧ (∀ (cfg : Config) (o : Oracles) (w : World) (fn : String) (mid : Int),
      fn ≠ "" →
      o.parseResult = none →
      (telegram_webhook cfg o w (Update.channelPost cfg.adminChannelId (some fn) mid)).response
          = WebhookResponse.ok (some "parsing_failed")
      ∧ (telegram_webhook cfg o w (Update.channelPost cfg.adminChannelId (some fn) mid)).docs
          = w.docs)
    ∧ (∀ (cfg : Config) (o : Oracles) (w : World) (chatId : Int) (text : String)
         (cmd payload : String) (rest : List String),
      pyStartsWith text "/start" = true →
      pySplit text = cmd :: payload :: rest →
      startInner w.docs w.sched w.now chatId (pySplitUnderscore payload) o.copyResult
          = Except.error () →
      (telegram_webhook cfg o w (Update.userMessage chatId text)).sentTexts = [unexpectedErrText]
      ∧ (telegram_webhook cfg o w (Update.userMessage chatId text)).response
          = WebhookResponse.ok none
      ∧ (telegram_webhook cfg o w (Update.userMessage chatId text)).docs = w.docs) := by
  refine ⟨?_, ?_, ?_⟩
  · intro cfg o w chatId fn mid hNe
    have hb : (chatId == cfg.adminChannelId) = false := beq_eq_false_iff_ne.mpr hNe
    refine ⟨?_, ?_, ?_⟩ <;> simp [telegram_webhook, handleChannelPost, hb]
  · intro cfg o w fn mid hfn hparse
    have hf : (fn == "") = false := beq_eq_false_iff_ne.mpr hfn
    refine ⟨?_, ?_⟩ <;> simp [telegram_webhook, handleChannelPost, hf, hparse]
  · intro cfg o w chatId text cmd payload rest hS hSplit hErr
    have hH : handleStartPayload w.docs w.sched w.now chatId (pySplitUnderscore payload)
        o.copyResult = ⟨[unexpectedErrText], 0, none, w.sched⟩ := by
      unfold handleStartPayload
      rw [hErr]
    refine ⟨?_, ?_, ?_⟩ <;> simp [telegram_webhook, handleMessage, hS, hSplit, hH]

/-- Witness for C8 at concrete inputs. -/
theorem C8_per_event_containment_witness :
    ((telegram_webhook cfgW oW wW (Update.channelPost "999" none 1)).response
        = WebhookResponse.ok (some "not_admin_channel"))
    ∧ ((telegram_webhook cfgW oW wW (Update.channelPost cfgW.adminChannelId (some "file.mkv") 1)).response
        = WebhookResponse.ok (some "parsing_failed"))
    ∧ ((telegram_webhook cfgW oW wW (Update.userMessage 5 "/start abc")).sentTexts
        = [unexpectedErrText]) :=
  ⟨(C8_per_event_containment.1 cfgW oW wW "999" none 1 (by decide)).1,
   (C8_per_event_containment.2.1 cfgW oW wW "file.mkv" 1 (by decide) rfl).1,
   (C8_per_event_containment.2.2 cfgW oW wW 5 "/start abc" "/start" "abc" []
      (by decide) (by decide) rfl).1⟩

theorem mem_notifCallsOfArg (a : Option (Option ContentEntry))
    (x : Option ContentEntry) (hx : x ∈ notifCallsOfArg a) : a = some x := by
  cases a with
  | none => simp [notifCallsOfArg] at hx
  | some y =>
    simp [notifCallsOfArg] at hx
    rw [hx]

/-- Evaluation of the shell branch of the reconciler when it creates. -/
theorem getOrCreateShell_creates (docs : List ContentEntry) (parsed : ParsedInfo)
    (freshId : String)
    (hF : docs.find? (fun e => e.tmdb_id == none && titleMatchesCI e.title parsed.title) = none)
    (hFresh : ∀ e ∈ docs, e.id ≠ freshId) :
    getOrCreateShell docs parsed freshId =
      ⟨some (shellDoc parsed freshId), docs ++ [shellDoc parsed freshId],
       some (some (shellDoc parsed freshId))⟩ := by
  unfold getOrCreateShell
  rw [hF]
  have h1 : docs.find? (fun e => e.id == freshId) = none := by
    rw [List.find?_eq_none]
    intro e he
    simpa using hFresh e he
  have hshell : (docs ++ [shellDoc parsed freshId]).find? (fun e => e.id == freshId) =
      some (shellDoc parsed freshId) := by
    rw [find?_append_none _ _ _ h1]
    simp [List.find?, shellDoc]
  simp only []
  rw [hshell]

/-- Evaluation of the TMDb branch of the reconciler when it creates. -/
theorem get_or_create_creates_tmdb (docs : List ContentEntry) (d : TmdbDetails)
    (parsed : ParsedInfo) (freshId : String)
    (hT : tmdbIdTruthy d.tmdb_id = true)
    (hF : docs.find? (fun e => e.tmdb_id == d.tmdb_id) = none) :
    get_or_create_content_entry docs (some d) parsed freshId =
      ⟨some (baseDocOfTmdb d parsed.target freshId),
       docs ++ [baseDocOfTmdb d parsed.target freshId],
       some (some (baseDocOfTmdb d parsed.target freshId))⟩ := by
  unfold get_or_create_content_entry
  have hbase : (docs ++ [baseDocOfTmdb d parsed.target freshId]).find?
      (fun e => e.tmdb_id == d.tmdb_id) = some (baseDocOfTmdb d parsed.target freshId) := by
    rw [find?_append_none _ _ _ hF]
    simp [List.find?, baseDocOfTmdb]
  simp only [hT, if_true, hF, hbase]

/-- Any document argument of a notification call made by the reconciler
has an empty `categories` list. -/
theorem reconcile_notifArg_categories (docs : List ContentEntry)
    (tmdb : Option TmdbDetails) (parsed : ParsedInfo) (freshId : String)
    (hFresh : ∀ e ∈ docs, e.id ≠ freshId) :
    ∀ x, (get_or_create_content_entry docs tmdb parsed freshId).notifArg = some x →
      ∀ d, x = some d → d.categories = [] := by
  have hShellCase : ∀ x, (getOrCreateShell docs parsed freshId).notifArg = some x →
      ∀ d, x = some d → d.categories = [] := by
    intro x hx d hd
    cases hF : docs.find? (fun e => e.tmdb_id == none && titleMatchesCI e.title parsed.title) with
    | some existing =>
      unfold getOrCreateShell at hx
      rw [hF] at hx
      simp at hx
    | none =>
      rw [getOrCreateShell_creates docs parsed freshId hF hFresh] at hx
      simp at hx
      rw [← hx] at hd
      have hd2 : shellDoc parsed freshId = d := Option.some.inj hd
      rw [← hd2]
      rfl
  cases tmdb with
  | none => exact hShellCase
  | some dtl =>
    by_cases hT : tmdbIdTruthy dtl.tmdb_id
    · cases hF : docs.find? (fun e => e.tmdb_id == dtl.tmdb_id) with
      | some existing =>
        intro x hx
        unfold get_or_create_content_entry at hx
        simp [hT, hF] at hx
      | none =>
        intro x hx d hd
        rw [get_or_create_creates_tmdb docs dtl parsed freshId hT hF] at hx
        simp at hx
        rw [← hx] at hd
        have hd2 : baseDocOfTmdb dtl parsed.target freshId = d := Option.some.inj hd
        rw [← hd2]
        rfl
    · intro x hx
      have hEq : get_or_create_content_entry docs (some dtl) parsed freshId =
          getOrCreateShell docs parsed freshId := by
        unfold get_or_create_content_entry
        simp [hT]
      rw [hEq] at hx
      exact hShellCase x hx

/-- Every notification call recorded by one webhook invocation carries a
document with empty `categories` (given a genuinely fresh `ObjectId`). -/
theorem webhook_notifCalls_categories (cfg : Config) (o : Oracles) (w : World)
    (u : Update) (hFresh : ∀ e ∈ w.docs, e.id ≠ o.freshId) :
    ∀ x ∈ (telegram_webhook cfg o w u).notifCalls, ∀ d, x = some d →
      d.categories = [] := by
  cases u with
  | otherUpdate =>
    intro x hx
    simp [telegram_webhook] at hx
  | userMessage chatId text =>
    intro x hx
    replace hx : x ∈ (handleMessage cfg o w chatId text).notifCalls := hx
    unfold handleMessage at hx
    split at hx
    · split at hx <;> simp at hx
    · simp at hx
  | channelPost chatId fn mid =>
    intro x hx d hd
    replace hx : x ∈ (handleChannelPost cfg o w chatId fn mid).notifCalls := hx
    unfold handleChannelPost at hx
    split at hx
    · simp at hx
    · split at hx
      · simp at hx
      · split at hx
        · simp at hx
        · split at hx
          · simp at hx
          · split at hx
            · next heq =>
              simp only [] at hx
              have harg := mem_notifCallsOfArg _ _ hx
              exact reconcile_notifArg_categories w.docs o.tmdbResult ‹ParsedInfo› o.freshId
                hFresh x (by rw [heq]; exact harg) d hd
            · next heq =>
              simp only [] at hx
              have harg := mem_notifCallsOfArg _ _ hx
              exact reconcile_notifArg_categories w.docs o.tmdbResult ‹ParsedInfo› o.freshId
                hFresh x (by rw [heq]; exact harg) d hd

/-- A document with empty `categories` is never announced with the
"Coming Soon" teaser caption and is never pinned. -/
theorem send_notification_no_teaser_no_pin (cs ok : Bool) (d : ContentEntry)
    (h : d.categories = []) :
    (send_notification_to_channel cs ok (some d)).teaser = false
    ∧ (send_notification_to_channel cs ok (some d)).pinned = false := by
  unfold send_notification_to_channel
  cases cs
  · simp
  · by_cases hp : posterMissingOrPlaceholder d.poster = true
    · simp [hp]
    · simp [hp, h]

/-- C10. Every `ContentEntry` the ingestion webhook creates (whether
catalog-backed or shell) has `categories = []`; consequently its
creation-time announcement never takes the "Coming Soon" teaser branch
and is never pinned, since both require a non-empty `categories` list. -/
theorem C10_created_entry_empty_categories :
    ∀ (cfg : Config) (o : Oracles) (w : World) (u : Update),
    (∀ e ∈ w.docs, e.id ≠ o.freshId) →
    ∀ x ∈ (telegram_webhook cfg o w u).notifCalls, ∀ d, x = some d →
      (d.categories = []
       ∧ ∀ (channelSet sendOk : Bool),
           (send_notification_to_channel channelSet sendOk (some d)).teaser = false
           ∧ (send_notification_to_channel channelSet sendOk (some d)).pinned = false) := by
  intro cfg o w u hFresh x hx d hd
  have hcat := webhook_notifCalls_categories cfg o w u hFresh x hx d hd
  exact ⟨hcat, fun cs ok => send_notification_no_teaser_no_pin cs ok d hcat⟩

/-- Witness for C10 at concrete inputs. -/
theorem C10_created_entry_empty_categories_witness :
    (shellDoc parsedMovie720 "eeeeeeeeeeeeeeeeeeeeeeee").categories = []
    ∧ (send_notification_to_channel true true
        (some (shellDoc parsedMovie720 "eeeeeeeeeeeeeeeeeeeeeeee"))).pinned = false :=
  ⟨(C10_created_entry_empty_categories cfgW oC10 wW
      (Update.channelPost cfgW.adminChannelId (some "Example.Movie.2021.720p.mkv") 9)
      (by simp [wW]) (some (shellDoc parsedMovie720 "eeeeeeeeeeeeeeeeeeeeeeee"))
      (by decide) (shellDoc parsedMovie720 "eeeeeeeeeeeeeeeeeeeeeeee") rfl).1,
   ((C10_created_entry_empty_categories cfgW oC10 wW
      (Update.channelPost cfgW.adminChannelId (some "Example.Movie.2021.720p.mkv") 9)
      (by simp [wW]) (some (shellDoc parsedMovie720 "eeeeeeeeeeeeeeeeeeeeeeee"))
      (by decide) (shellDoc parsedMovie720 "eeeeeeeeeeeeeeeeeeeeeeee") rfl).2 true true).2⟩
